import Mathlib

/-!
Verification of the news-radar client selection and feed synchronization core.

The definitions below are a shallow embedding of the frontend source:
  - Layout.tsx            : selection-repair effect, group candidate sets
  - Topics.tsx            : topic CRUD operations over the local topics store
  - Dashboard (part_010)  : feed loader with client-side group filtering
  - Dashboard (part_012)  : feed loader using the group-scoped endpoint,
                            bookmark toggling with rollback, normalization
JavaScript strings are Lean Strings, numbers are Int or Rat (with an explicit
NaN marker where the source checks Number.isNaN), nullable values are Option,
and fallible backend calls are Except values threaded into completion steps.
-/

namespace NewsRadar

/-- A JavaScript number that may be NaN; finite values are modelled as
rationals (the scores handled by the source are decimal fractions). -/
inductive JsNumber where
  | nan : JsNumber
  | num (q : ℚ) : JsNumber
  deriving Repr, DecidableEq

/-- Math.round: rounds half toward positive infinity, i.e. floor (x + 1/2). -/
def jsRound (q : ℚ) : ℤ := ⌊q + 1/2⌋

/-- JavaScript string truthiness: only the empty string is falsy. -/
def jsTruthyStr (s : String) : Bool := s != ""

/-- Truthiness of a string-or-null value: null and "" are falsy. -/
def jsTruthyOptStr : Option String → Bool
  | some s => s != ""
  | none => false

/-- The expression a || b for strings: b when a is empty. -/
def jsOrStr (a b : String) : String := if a = "" then b else a

/-- The expression a || b for a string-or-null a. -/
def jsOrElse (a : Option String) (b : String) : String :=
  match a with
  | some s => if s = "" then b else s
  | none => b

/-- ApiTopicGroupItem from lib/types.ts (the fields consumed by the core). -/
structure ApiTopicGroupItem where
  id : Int
  uuid : String
  name : String
  description : String
  is_public : Bool
  default_search_recency_filter : Option String
  default_search_language_filter : Option (List String)
  default_country : Option String
  deriving Repr, DecidableEq

/-- ApiContentFeedItem from lib/types.ts. -/
structure ApiContentFeedItem where
  id : Int
  url : String
  title : String
  summary : String
  source : String
  created_at : String
  published_at : Option String
  topic_uuid : String
  topic_queries : List String
  relevance_score : Option JsNumber
  is_bookmarked : Bool
  deriving Repr, DecidableEq

/-- NewsItem from lib/types.ts, the view-ready feed record.  The timestamp
field records the date-source string chosen by mapNewsItem
(published_at || created_at); platform Date parsing and the
current-time fallback for unparseable dates are outside the model and no
claim depends on them. -/
structure NewsItem where
  id : Int
  title : String
  summary : String
  source : String
  timestamp : String
  relevanceScore : ℤ
  keywords : List String
  category : String
  url : String
  isBookmarked : Bool
  deriving Repr, DecidableEq

/-- TopicItem from lib/types.ts (the fields consumed by the core). -/
structure TopicItem where
  id : Int
  uuid : String
  term : String
  category : String
  isActive : Bool
  lastSearch : Option String
  hasNewItems : Bool
  groupUuid : Option String
  groupName : Option String
  deriving Repr, DecidableEq

/-- normalizeScore from the Dashboard components (part_010 lines 68-72,
part_012 lines 95-99 and 774-778): null and NaN become 0, scores at most 1
are treated as fractional and scaled to 0-100, larger scores are rounded. -/
def normalizeScore : Option JsNumber → ℤ
  | none => 0
  | some JsNumber.nan => 0
  | some (JsNumber.num q) => if q ≤ 1 then jsRound (q * 100) else jsRound q

/-- Helper for the URL host model: scans for the first "://" and returns the
host characters that follow it (up to the first /, ?, # or :). -/
def hostAfterSep : List Char → Option (List Char)
  | ':' :: '/' :: '/' :: rest =>
      some (rest.takeWhile fun c => c != '/' && c != '?' && c != '#' && c != ':')
  | _ :: cs => hostAfterSep cs
  | [] => none

/-- Models the platform URL constructor as used by new URL(u).hostname for
scheme://host[:port][/path] URLs: the characters after the first "://" up to
the first of /, ?, # or : form the hostname; a string without "://" or with
an empty hostname fails to parse (the constructor throws). -/
def parseUrlHost (url : String) : Option String :=
  match hostAfterSep url.toList with
  | some hostChars => if hostChars.isEmpty then none else some (String.mk hostChars)
  | none => none

/-- The replace of a leading "www." (regexp anchored at the start, replaced
once) applied to a hostname. -/
def stripWww (host : String) : String :=
  match host.toList with
  | 'w' :: 'w' :: 'w' :: '.' :: rest => String.mk rest
  | _ => host

/-- getSourceLabel of the primary Dashboards (part_010 lines 60-66, part_012
lines 87-93): URL host first, then the raw source field, then "Unknown". -/
def getSourceLabel (item : ApiContentFeedItem) : String :=
  match parseUrlHost item.url with
  | some host => stripWww host
  | none => jsOrStr item.source "Unknown"

/-- getSourceLabel of the alternate Dashboard (part_012 lines 765-772): a
truthy raw source field takes precedence; the URL host is only consulted
when the source field is empty, and "Unknown" is the final fallback. -/
def getSourceLabelAlt (item : ApiContentFeedItem) : String :=
  if jsTruthyStr item.source then item.source
  else
    match parseUrlHost item.url with
    | some host => stripWww host
    | none => "Unknown"

/-- mapNewsItem from the Dashboard components (part_010 lines 74-90, part_012
lines 101-117): normalizes a raw feed item into a view-ready NewsItem. -/
def mapNewsItem (item : ApiContentFeedItem) : NewsItem :=
  let keywords := if item.topic_queries.isEmpty then ["radar"] else item.topic_queries
  { id := item.id
    title := jsOrStr item.title item.url
    summary := jsOrStr item.summary "Summary not available."
    source := getSourceLabel item
    timestamp := jsOrElse item.published_at item.created_at
    relevanceScore := normalizeScore item.relevance_score
    keywords := keywords
    category := "general"
    url := item.url
    isBookmarked := item.is_bookmarked }

/-! ### Group selection repair (Layout.tsx lines 159-180) -/

/-- The selection-repair effect of Layout.tsx (lines 159-180) as a pure
function of (groups, isAuthenticated, previous groupId).  isAuthenticated is
boolean-or-null (null while the auth probe is pending).  The effect returns
the next selectedGroupId; branches that issue no setSelectedGroupId call
leave the previous value in place. -/
def repairSelection (groups : List ApiTopicGroupItem) (isAuthenticated : Option Bool)
    (selectedGroupId : String) : String :=
  match isAuthenticated with
  | none => selectedGroupId
  | some false =>
    match groups.filter (·.is_public) with
    | [] => ""
    | firstPublic :: restPublic =>
      if (firstPublic :: restPublic).any (·.uuid == selectedGroupId) then selectedGroupId
      else firstPublic.uuid
  | some true =>
    if groups.any (·.uuid == selectedGroupId) then selectedGroupId
    else
      match groups with
      | [] => ""
      | firstGroup :: _ => firstGroup.uuid

/-- The authentication-appropriate candidate set in the words of the spec:
public groups only when unauthenticated, all groups when authenticated.
Stated from the spec for comparison with repairSelection. -/
def specCandidateGroups (groups : List ApiTopicGroupItem) (isAuthenticated : Bool) :
    List ApiTopicGroupItem :=
  match isAuthenticated with
  | true => groups
  | false => groups.filter (·.is_public)

/-! ### Feed loader (Dashboard components, part_010 and part_012) -/

/-- The backend request a feed load issues. -/
inductive FeedRequest where
  | topicFeed (topicUuid : String) : FeedRequest
  | groupFeed (groupUuid : String) : FeedRequest
  | fullFeed : FeedRequest
  deriving Repr, DecidableEq

/-- Request selection of loadFeed in part_012 (lines 147-151): topic-scoped
feed when a topic is selected, otherwise the dedicated group endpoint
listContentByGroup when a group is selected, otherwise the full feed. -/
def feedRequest12 (selectedTopicUuid : Option String) (selectedGroupId : String) :
    FeedRequest :=
  if jsTruthyOptStr selectedTopicUuid then FeedRequest.topicFeed (selectedTopicUuid.getD "")
  else if jsTruthyStr selectedGroupId then FeedRequest.groupFeed selectedGroupId
  else FeedRequest.fullFeed

/-- Request selection of loadFeed in part_010 (lines 126-128): topic-scoped
feed when a topic is selected, otherwise the unscoped full feed. -/
def feedRequest10 (selectedTopicUuid : Option String) : FeedRequest :=
  if jsTruthyOptStr selectedTopicUuid then FeedRequest.topicFeed (selectedTopicUuid.getD "")
  else FeedRequest.fullFeed

/-- Client-side group filtering of loadFeed in part_010 (lines 129-141): with
no topic selected and a group selected, keep only items whose topic_uuid is
among the selected group's topic uuids (the Set built from topics), or no
items at all when the group has no topics. -/
def filterByGroup10 (selectedTopicUuid : Option String) (selectedGroupId : String)
    (topics : List TopicItem) (items : List ApiContentFeedItem) :
    List ApiContentFeedItem :=
  if !jsTruthyOptStr selectedTopicUuid && jsTruthyStr selectedGroupId then
    let groupTopicUuids :=
      (topics.filter fun t => t.groupUuid == some selectedGroupId).map (·.uuid)
    if groupTopicUuids.length != 0 then
      items.filter fun item => groupTopicUuids.contains item.topic_uuid
    else []
  else items

/-- The feed-owned component state of the Dashboard: news, loading, error. -/
structure FeedState where
  news : List NewsItem
  loading : Bool
  error : Option String
  deriving Repr, DecidableEq

/-- Events of a feed-loader execution.  start is the synchronous prefix of a
loadFeed call (it records the selection captured by the call and issues the
request); success and failure are the continuations that run when some
in-flight request resolves or rejects. -/
inductive FeedEvent where
  | start (selectedTopicUuid : Option String) (selectedGroupId : String) : FeedEvent
  | success (items : List ApiContentFeedItem) : FeedEvent
  | failure (message : String) : FeedEvent
  deriving Repr, DecidableEq

/-- State transition of loadFeed in part_012 (lines 143-160).  The start
step runs setLoading(true) and setError(null).  The success continuation
(line 152 plus the finally block) commits the mapped response and clears
loading: the source performs no check that the originating selection is
still the active one.  The failure continuation sets the error message,
empties the list and clears loading. -/
def feedStep (st : FeedState) : FeedEvent → FeedState
  | FeedEvent.start _ _ => { st with loading := true, error := none }
  | FeedEvent.success items =>
      { st with news := items.map mapNewsItem, loading := false }
  | FeedEvent.failure msg =>
      { st with error := some msg, news := [], loading := false }

/-- The feed effect of the Dashboard (part_012 lines 162-169, part_010 lines
152-159): when isAuthenticated is truthy it runs the synchronous prefix of
loadFeed and issues the request for the current selection; when it is
exactly false it empties the news list and clears loading; when it is null
neither branch runs.  Returns the next state and the issued request. -/
def dashboardFeedEffect (isAuthenticated : Option Bool)
    (selectedTopicUuid : Option String) (selectedGroupId : String)
    (st : FeedState) : FeedState × Option FeedRequest :=
  if isAuthenticated = some true then
    ({ st with loading := true, error := none },
     some (feedRequest12 selectedTopicUuid selectedGroupId))
  else if isAuthenticated = some false then
    ({ st with news := [], loading := false }, none)
  else (st, none)

/-! ### Bookmark toggling (part_012 lines 171-193 and 830-852) -/

/-- The optimistic step of toggleBookmark: every entry whose id matches the
invoked item gets isBookmarked := !item.isBookmarked before the backend
call is awaited. -/
def toggleBookmarkOptimistic (item : NewsItem) (news : List NewsItem) : List NewsItem :=
  news.map fun entry =>
    if entry.id == item.id then { entry with isBookmarked := !item.isBookmarked } else entry

/-- The rollback step of toggleBookmark, run when the backend call fails:
every entry whose id matches the invoked item gets isBookmarked restored to
the invoked item's pre-toggle value. -/
def toggleBookmarkRollback (item : NewsItem) (news : List NewsItem) : List NewsItem :=
  news.map fun entry =>
    if entry.id == item.id then { entry with isBookmarked := item.isBookmarked } else entry

/-! ### Topics page operations (Topics.tsx lines 73-123) -/

/-- The topics-store state of the Topics page: the topics list and the error
field, together with the ambient group selection from TopicGroupContext
(which the page reads but never writes). -/
structure TopicsPageState where
  topics : List TopicItem
  error : Option String
  selectedGroupId : String
  deriving Repr, DecidableEq

/-- Characters trimmed by String.prototype.trim (the whitespace the source
inputs can contain). -/
def isJsSpace (c : Char) : Bool := c == ' ' || c == '\t' || c == '\n' || c == '\r'

/-- String.prototype.trim. -/
def jsTrim (s : String) : String :=
  String.mk (((s.toList.dropWhile isJsSpace).reverse.dropWhile isJsSpace).reverse)

/-- The synchronous prefix of addTopic (Topics.tsx lines 73-77): queries are
trimmed and empty entries dropped; with no query left the call returns
without touching state or the network, otherwise it clears the error and
issues the create request.  The returned flag records whether a request was
issued.  (Form-field resets after success are component-local input state,
outside the topics store.) -/
def addTopicSync (queries : List String) (st : TopicsPageState) :
    TopicsPageState × Bool :=
  let normalizedQueries := (queries.map jsTrim).filter (jsTruthyStr ·)
  if normalizedQueries.isEmpty then (st, false)
  else ({ st with error := none }, true)

/-- The completion of addTopic (Topics.tsx lines 80-95): on success the
created topic is prepended to the topics list ([created, ...prev]); on
failure the error message is stored and the list is untouched. -/
def addTopicComplete (result : Except String TopicItem) (st : TopicsPageState) :
    TopicsPageState :=
  match result with
  | Except.ok created => { st with topics := created :: st.topics }
  | Except.error msg => { st with error := some msg }

/-- The synchronous prefix of removeTopic (Topics.tsx lines 98-99): only
setError(null) runs before the delete request is awaited. -/
def removeTopicSync (st : TopicsPageState) : TopicsPageState :=
  { st with error := none }

/-- The completion of removeTopic (Topics.tsx lines 100-106): on success the
topic is removed by id; on failure the error message is stored and the list
is untouched. -/
def removeTopicComplete (topic : TopicItem) (result : Except String Unit)
    (st : TopicsPageState) : TopicsPageState :=
  match result with
  | Except.ok _ => { st with topics := st.topics.filter fun t => !(t.id == topic.id) }
  | Except.error msg => { st with error := some msg }

/-- The synchronous prefix of toggleStatus (Topics.tsx lines 109-113): the
matching topic's isActive is flipped to !topic.isActive before the update
request is awaited (an optimistic write). -/
def toggleStatusSync (topic : TopicItem) (st : TopicsPageState) : TopicsPageState :=
  { st with topics := st.topics.map fun t =>
      if t.id == topic.id then { t with isActive := !topic.isActive } else t }

/-- The completion of toggleStatus (Topics.tsx lines 114-122): on success
nothing further changes; on failure the matching topic's isActive is
restored to the invoked topic's pre-toggle value and the error is stored. -/
def toggleStatusComplete (topic : TopicItem) (result : Except String Unit)
    (st : TopicsPageState) : TopicsPageState :=
  match result with
  | Except.ok _ => st
  | Except.error msg =>
      { st with
        topics := st.topics.map (fun t =>
          if t.id == topic.id then { t with isActive := topic.isActive } else t),
        error := some msg }

/-! ### Concrete fixtures used by scenario theorems, counterexamples and
witnesses -/

/-- A feed item with a parseable URL and a non-empty raw source field. -/
def reutersItem : ApiContentFeedItem :=
  { id := 1, url := "https://www.example.com/a/b", title := "Example", summary := "s"
    source := "Reuters", created_at := "2024-01-01T00:00:00Z", published_at := none
    topic_uuid := "topic-1", topic_queries := ["q"], relevance_score := none
    is_bookmarked := false }

/-- A feed item with a malformed URL and raw source "Reuters". -/
def malformedReutersItem : ApiContentFeedItem :=
  { reutersItem with id := 2, url := "not a url" }

/-- A feed item with a malformed URL and an empty raw source field. -/
def malformedUnknownItem : ApiContentFeedItem :=
  { reutersItem with id := 3, url := "not a url", source := "" }

/-- Response item of the stale fetch A in the last-selection-wins scenario. -/
def itemA : ApiContentFeedItem :=
  { id := 101, url := "https://a.example/one", title := "From A", summary := "sa"
    source := "SrcA", created_at := "2024-01-01T00:00:00Z", published_at := none
    topic_uuid := "topic-1", topic_queries := ["alpha"], relevance_score := none
    is_bookmarked := false }

/-- Response item of the fresh fetch B in the last-selection-wins scenario. -/
def itemB : ApiContentFeedItem :=
  { id := 202, url := "https://b.example/two", title := "From B", summary := "sb"
    source := "SrcB", created_at := "2024-02-02T00:00:00Z", published_at := none
    topic_uuid := "topic-2", topic_queries := ["beta"], relevance_score := none
    is_bookmarked := false }

/-- The scenario trace of the last-selection-wins claim: fetch A is started
for topic-1, the selection changes and fetch B is started for topic-2, B
resolves first, then A resolves. -/
def staleLoadTrace : List FeedEvent :=
  [FeedEvent.start (some "topic-1") "",
   FeedEvent.start (some "topic-2") "",
   FeedEvent.success [itemB],
   FeedEvent.success [itemA]]

/-- The private group of the spec end-to-end scenario. -/
def groupG1 : ApiTopicGroupItem :=
  { id := 1, uuid := "g1", name := "G1", description := "", is_public := false
    default_search_recency_filter := none, default_search_language_filter := none
    default_country := none }

/-- The public group of the spec end-to-end scenario. -/
def groupG2 : ApiTopicGroupItem :=
  { groupG1 with id := 2, uuid := "g2", name := "G2", is_public := true }

/-- A view-ready feed item used by the bookmark-rollback witness. -/
def nwA : NewsItem :=
  { id := 11, title := "A", summary := "sa", source := "a.example"
    timestamp := "2024-01-01T00:00:00Z", relevanceScore := 10, keywords := ["a"]
    category := "general", url := "https://a.example/one", isBookmarked := false }

/-- A second feed item, already bookmarked. -/
def nwB : NewsItem :=
  { nwA with id := 12, title := "B", isBookmarked := true }

/-- A third feed item, standing in for a list from which nwA was removed. -/
def nwC : NewsItem :=
  { nwA with id := 13, title := "C" }

/-- A topic present in the Topics page store. -/
def topicT1 : TopicItem :=
  { id := 1, uuid := "t1", term := "one", category := "General", isActive := true
    lastSearch := none, hasNewItems := false, groupUuid := some "g1"
    groupName := some "G1" }

/-- A freshly created topic returned by the backend. -/
def topicT2 : TopicItem :=
  { topicT1 with id := 2, uuid := "t2", term := "two" }

/-- The Topics page state holding [topicT1] with group g1 selected. -/
def topicsPageSt : TopicsPageState :=
  { topics := [topicT1], error := none, selectedGroupId := "g1" }

/-! ### Helper lemmas -/

/-- A list map whose function fixes every member is the identity. -/
theorem map_fix_eq_self {α : Type} (f : α → α) :
    ∀ (l : List α), (∀ a ∈ l, f a = a) → l.map f = l := by
  intro l h
  induction l with
  | nil => rfl
  | cons a t ih =>
    rw [List.map_cons, h a (List.mem_cons_self a t),
      ih fun x hx => h x (List.mem_cons_of_mem a hx)]

/-- Record eta for the isBookmarked update of a NewsItem. -/
theorem newsItem_set_own_bookmark (e : NewsItem) :
    { e with isBookmarked := e.isBookmarked } = e := by
  cases e
  rfl

/-- Record eta for the isActive update of a TopicItem. -/
theorem topicItem_set_own_active (t : TopicItem) :
    { t with isActive := t.isActive } = t := by
  cases t
  rfl

/-- Boolean any over uuid equality agrees with membership in the mapped
uuid list. -/
theorem any_uuid_iff_mem (l : List ApiTopicGroupItem) (s : String) :
    (l.any fun g => g.uuid == s) = true ↔ s ∈ l.map ApiTopicGroupItem.uuid := by
  simp only [List.any_eq_true, List.mem_map, beq_iff_eq]

/-- The selection-repair effect, for a resolved authentication state, equals
the keep-if-valid-else-first-candidate function over the
authentication-appropriate candidate set. -/
theorem repairSelection_characterization (groups : List ApiTopicGroupItem)
    (b : Bool) (prev : String) :
    repairSelection groups (some b) prev =
      (if prev ∈ (specCandidateGroups groups b).map ApiTopicGroupItem.uuid then prev
       else ((specCandidateGroups groups b).map ApiTopicGroupItem.uuid).headD "") := by
  cases b with
  | false =>
    dsimp only [repairSelection, specCandidateGroups]
    cases hpub : groups.filter (fun g => g.is_public) with
    | nil => simp
    | cons firstPublic restPublic =>
      dsimp only
      by_cases hmem : prev ∈ (firstPublic :: restPublic).map ApiTopicGroupItem.uuid
      · rw [if_pos ((any_uuid_iff_mem _ _).mpr hmem), if_pos hmem]
      · rw [if_neg (fun hany => hmem ((any_uuid_iff_mem _ _).mp hany)), if_neg hmem]
        simp
  | true =>
    dsimp only [repairSelection, specCandidateGroups]
    by_cases hmem : prev ∈ groups.map ApiTopicGroupItem.uuid
    · rw [if_pos ((any_uuid_iff_mem _ _).mpr hmem), if_pos hmem]
    · rw [if_neg (fun hany => hmem ((any_uuid_iff_mem _ _).mp hany)), if_neg hmem]
      cases groups with
      | nil => simp
      | cons g r => simp

/-! ### Claim theorems -/

/-- C3: Selection-repair correctness.  For every (groups, isAuthenticated,
previousGroupId) with a resolved authentication state, the repaired groupId
is empty or a member of the authentication-appropriate candidate set; a
previous selection inside the candidate set is kept, otherwise the first
candidate in server list order is selected ("" when the candidate set is
empty); and on groups [g1 private, g2 public] with isAuthenticated = false
and previous selection "g1" the repaired selection is "g2". -/
theorem selectionRepair_valid (groups : List ApiTopicGroupItem) (b : Bool) (prev : String) :
    (repairSelection groups (some b) prev = "" ∨
      repairSelection groups (some b) prev ∈
        (specCandidateGroups groups b).map ApiTopicGroupItem.uuid) ∧
    (prev ∈ (specCandidateGroups groups b).map ApiTopicGroupItem.uuid →
      repairSelection groups (some b) prev = prev) ∧
    (prev ∉ (specCandidateGroups groups b).map ApiTopicGroupItem.uuid →
      repairSelection groups (some b) prev =
        ((specCandidateGroups groups b).map ApiTopicGroupItem.uuid).headD "") ∧
    repairSelection [groupG1, groupG2] (some false) "g1" = "g2" := by
  refine ⟨?_, ?_, ?_, by decide⟩
  · rw [repairSelection_characterization]
    by_cases hmem : prev ∈ (specCandidateGroups groups b).map ApiTopicGroupItem.uuid
    · rw [if_pos hmem]
      exact Or.inr hmem
    · rw [if_neg hmem]
      cases hc : (specCandidateGroups groups b).map ApiTopicGroupItem.uuid with
      | nil => exact Or.inl rfl
      | cons u r => exact Or.inr (by simp)
  · intro hmem
    rw [repairSelection_characterization, if_pos hmem]
  · intro hmem
    rw [repairSelection_characterization, if_neg hmem]

/-- Witness for C3 at the spec scenario: "g1" is outside the unauthenticated
candidate set of [g1 private, g2 public], so the repaired selection is the
first candidate. -/
theorem selectionRepair_valid_witness :
    "g1" ∉ (specCandidateGroups [groupG1, groupG2] false).map ApiTopicGroupItem.uuid ∧
    repairSelection [groupG1, groupG2] (some false) "g1" =
      ((specCandidateGroups [groupG1, groupG2] false).map ApiTopicGroupItem.uuid).headD "" :=
  ⟨by decide, (selectionRepair_valid [groupG1, groupG2] false "g1").2.2.1 (by decide)⟩

/-- C4: Selection-repair idempotence.  For every (groups, isAuthenticated,
previousGroupId), applying the repair twice with unchanged groups and
authentication state yields the same groupId as applying it once. -/
theorem selectionRepair_idempotent (groups : List ApiTopicGroupItem)
    (isAuthenticated : Option Bool) (prev : String) :
    repairSelection groups isAuthenticated (repairSelection groups isAuthenticated prev) =
      repairSelection groups isAuthenticated prev := by
  cases isAuthenticated with
  | none => rfl
  | some b =>
    rw [repairSelection_characterization groups b prev,
      repairSelection_characterization groups b]
    by_cases hmem : prev ∈ (specCandidateGroups groups b).map ApiTopicGroupItem.uuid
    · rw [if_pos hmem, if_pos hmem]
    · rw [if_neg hmem, ite_self]

/-- C5: Relevance-score normalization.  null and NaN scores normalize to 0;
a score at most 1 is scaled by 100 and rounded; a score above 1 is rounded
as already being on the 0-100 scale; in particular 0.87 normalizes to 87
and 87 normalizes to 87. -/
theorem normalizeScore_spec :
    (∀ q : ℚ, q ≤ 1 → normalizeScore (some (JsNumber.num q)) = jsRound (q * 100)) ∧
    (∀ q : ℚ, 1 < q → normalizeScore (some (JsNumber.num q)) = jsRound q) ∧
    normalizeScore none = 0 ∧
    normalizeScore (some JsNumber.nan) = 0 ∧
    normalizeScore (some (JsNumber.num (87/100))) = 87 ∧
    normalizeScore (some (JsNumber.num 87)) = 87 := by
  refine ⟨?_, ?_, rfl, rfl, ?_, ?_⟩
  · intro q hq
    show (if q ≤ 1 then jsRound (q * 100) else jsRound q) = jsRound (q * 100)
    rw [if_pos hq]
  · intro q hq
    show (if q ≤ 1 then jsRound (q * 100) else jsRound q) = jsRound q
    rw [if_neg (not_le.mpr hq)]
  · show (if (87/100 : ℚ) ≤ 1 then jsRound (87/100 * 100) else jsRound (87/100)) = 87
    rw [if_pos (by norm_num)]
    unfold jsRound
    norm_num
  · show (if (87 : ℚ) ≤ 1 then jsRound (87 * 100) else jsRound 87) = 87
    rw [if_neg (by norm_num)]
    unfold jsRound
    norm_num

/-- Witness for C5 at score 0.87: the fractional branch applies and scales
by 100. -/
theorem normalizeScore_spec_witness :
    ((87 : ℚ)/100 ≤ 1) ∧
    normalizeScore (some (JsNumber.num (87/100))) = jsRound (87/100 * 100) :=
  ⟨by norm_num, normalizeScore_spec.1 (87/100) (by norm_num)⟩

/-- C6 counterexample: the alternate Dashboard's getSourceLabel (part_012
lines 765-772) does not derive the source from the URL host when the raw
source field is non-empty: for the item with URL https://www.example.com/a/b
and raw source "Reuters" the URL is parseable with host www.example.com, yet
the displayed source is "Reuters", not "example.com". -/
theorem sourceDerivation_counterexample :
    parseUrlHost reutersItem.url = some "www.example.com" ∧
    stripWww "www.example.com" = "example.com" ∧
    getSourceLabelAlt reutersItem = "Reuters" ∧
    getSourceLabelAlt reutersItem ≠ "example.com" := by
  refine ⟨by decide, by decide, by decide, by decide⟩

/-- C6 amended: in the primary Dashboards (part_010 lines 60-66, part_012
lines 87-93) the displayed source is the URL host with a leading "www."
stripped, falling back to the raw source field and then to "Unknown"; the
spec's three examples hold of that function.  The alternate Dashboard
(part_012 lines 765-772) instead prefers a non-empty raw source field and
consults the URL host only when the source field is empty, with "Unknown"
as the final fallback. -/
theorem sourceDerivation_spec :
    (∀ (item : ApiContentFeedItem) (host : String),
      parseUrlHost item.url = some host → getSourceLabel item = stripWww host) ∧
    (∀ item : ApiContentFeedItem, parseUrlHost item.url = none → item.source ≠ "" →
      getSourceLabel item = item.source) ∧
    (∀ item : ApiContentFeedItem, parseUrlHost item.url = none → item.source = "" →
      getSourceLabel item = "Unknown") ∧
    (∀ item : ApiContentFeedItem, item.source ≠ "" →
      getSourceLabelAlt item = item.source) ∧
    (∀ (item : ApiContentFeedItem) (host : String), item.source = "" →
      parseUrlHost item.url = some host → getSourceLabelAlt item = stripWww host) ∧
    (∀ item : ApiContentFeedItem, item.source = "" → parseUrlHost item.url = none →
      getSourceLabelAlt item = "Unknown") ∧
    getSourceLabel reutersItem = "example.com" ∧
    getSourceLabel malformedReutersItem = "Reuters" ∧
    getSourceLabel malformedUnknownItem = "Unknown" := by
  refine ⟨?_, ?_, ?_, ?_, ?_, ?_, by decide, by decide, by decide⟩
  · intro item host h
    unfold getSourceLabel
    rw [h]
  · intro item h hs
    unfold getSourceLabel
    rw [h]
    show jsOrStr item.source "Unknown" = item.source
    unfold jsOrStr
    rw [if_neg hs]
  · intro item h hs
    unfold getSourceLabel
    rw [h]
    show jsOrStr item.source "Unknown" = "Unknown"
    unfold jsOrStr
    rw [if_pos hs]
  · intro item hs
    unfold getSourceLabelAlt
    rw [if_pos (by simp [jsTruthyStr, hs])]
  · intro item host hs h
    unfold getSourceLabelAlt
    rw [if_neg (by simp [jsTruthyStr, hs]), h]
  · intro item hs h
    unfold getSourceLabelAlt
    rw [if_neg (by simp [jsTruthyStr, hs]), h]

/-- Witness for C6 at the spec example: the URL of reutersItem parses to
host www.example.com, and the primary getSourceLabel strips the www
prefix from it. -/
theorem sourceDerivation_spec_witness :
    parseUrlHost reutersItem.url = some "www.example.com" ∧
    getSourceLabel reutersItem = stripWww "www.example.com" :=
  ⟨by decide, sourceDerivation_spec.1 reutersItem "www.example.com" (by decide)⟩

/-- C1 counterexample: in the scenario of the claim (fetch A started for
selection topic-1, selection changed, fetch B started for topic-2 and
resolved first, then A resolved) the committed feed items are A's mapped
response, not B's: loadFeed commits whichever response resolves last, with
no staleness check. -/
theorem lastSelectionWins_counterexample :
    feedRequest12 (some "topic-1") "" = FeedRequest.topicFeed "topic-1" ∧
    feedRequest12 (some "topic-2") "" = FeedRequest.topicFeed "topic-2" ∧
    (staleLoadTrace.foldl feedStep { news := [], loading := false, error := none }).news
      = [itemA].map mapNewsItem ∧
    [itemA].map mapNewsItem ≠ [itemB].map mapNewsItem := by
  refine ⟨by decide, by decide, by decide, by decide⟩

/-- C1 amended: the feed loader is last-response-wins, not
last-selection-wins.  After any event sequence that ends with a response
resolving, the committed items are exactly that response's mapped items —
regardless of the selection the resolved fetch was started for, so a stale
response that resolves after a newer one overwrites it. -/
theorem feedLoader_lastResponseWins (st : FeedState) (es : List FeedEvent)
    (items : List ApiContentFeedItem) :
    ((es ++ [FeedEvent.success items]).foldl feedStep st).news = items.map mapNewsItem ∧
    ((es ++ [FeedEvent.success items]).foldl feedStep st).loading = false := by
  rw [List.foldl_append]
  exact ⟨rfl, rfl⟩

/-- C2: Bookmark rollback.  When the backend call of toggleBookmark fails,
the rollback applied to the optimistically updated list restores the item's
isBookmarked to its value at invocation time and leaves every other item
unchanged (the whole list is restored exactly, given item membership and
unique ids), and applied to a list that no longer contains the item's id it
is a no-op. -/
theorem bookmarkRollback_spec (item : NewsItem) (news gone : List NewsItem)
    (hmem : item ∈ news) (hnodup : (news.map NewsItem.id).Nodup)
    (habsent : ∀ e ∈ gone, e.id ≠ item.id) :
    toggleBookmarkRollback item (toggleBookmarkOptimistic item news) = news ∧
    toggleBookmarkRollback item gone = gone := by
  constructor
  · unfold toggleBookmarkRollback toggleBookmarkOptimistic
    rw [List.map_map]
    apply map_fix_eq_self
    intro e he
    by_cases h : e.id = item.id
    · have heq : e = item := List.inj_on_of_nodup_map hnodup he hmem h
      subst heq
      simp [newsItem_set_own_bookmark]
    · simp [Function.comp, h]
  · unfold toggleBookmarkRollback
    apply map_fix_eq_self
    intro e he
    rw [if_neg (by simp [habsent e he])]

/-- Witness for C2: rolling back a failed toggle on nwA in [nwA, nwB]
restores the list, and rolling back against [nwC] (nwA removed) is a
no-op. -/
theorem bookmarkRollback_spec_witness :
    (nwA ∈ [nwA, nwB] ∧ ([nwA, nwB].map NewsItem.id).Nodup ∧
      ∀ e ∈ [nwC], e.id ≠ nwA.id) ∧
    toggleBookmarkRollback nwA (toggleBookmarkOptimistic nwA [nwA, nwB]) = [nwA, nwB] ∧
    toggleBookmarkRollback nwA [nwC] = [nwC] :=
  ⟨⟨by decide, by decide, by decide⟩,
    (bookmarkRollback_spec nwA [nwA, nwB] [nwC] (by decide) (by decide) (by decide)).1,
    (bookmarkRollback_spec nwA [nwA, nwB] [nwC] (by decide) (by decide) (by decide)).2⟩

/-- C7 counterexample: the status-toggle update is optimistic.  Before the
backend call of toggleStatus completes, the synchronous prefix has already
flipped the matching topic's isActive in the store, so the store is mutated
before confirmation, contradicting the claim for the update operation. -/
theorem topicCrud_counterexample :
    (toggleStatusSync topicT1 topicsPageSt).topics = [{ topicT1 with isActive := false }] ∧
    (toggleStatusSync topicT1 topicsPageSt).topics ≠ topicsPageSt.topics := by
  refine ⟨by decide, by decide⟩

/-- C7 amended: topic create and delete are non-optimistic — their
synchronous prefixes leave the topics store (and the group selection)
unchanged, and on backend failure the store is exactly its pre-call state
with the error surfaced.  The status-toggle update, however, is optimistic:
its synchronous prefix flips the matching topic's isActive before the
backend call, and on failure the rollback restores the store to its
pre-call state (given item membership and unique ids) and surfaces the
error. -/
theorem topicCrud_spec (queries : List String) (topic : TopicItem) (msg : String)
    (st : TopicsPageState) (hmem : topic ∈ st.topics)
    (hnodup : (st.topics.map TopicItem.id).Nodup) :
    ((addTopicSync queries st).1.topics = st.topics ∧
      (addTopicSync queries st).1.selectedGroupId = st.selectedGroupId) ∧
    (addTopicComplete (Except.error msg) st).topics = st.topics ∧
    (addTopicComplete (Except.error msg) st).error = some msg ∧
    (removeTopicSync st).topics = st.topics ∧
    (removeTopicComplete topic (Except.error msg) st).topics = st.topics ∧
    (removeTopicComplete topic (Except.error msg) st).error = some msg ∧
    (toggleStatusSync topic st).topics = st.topics.map
      (fun t => if t.id == topic.id then { t with isActive := !topic.isActive } else t) ∧
    (toggleStatusComplete topic (Except.error msg) (toggleStatusSync topic st)).topics
      = st.topics ∧
    (toggleStatusComplete topic (Except.error msg) (toggleStatusSync topic st)).error
      = some msg := by
  refine ⟨?_, rfl, rfl, rfl, rfl, rfl, rfl, ?_, rfl⟩
  · by_cases h : ((queries.map jsTrim).filter (jsTruthyStr ·)).isEmpty
    · simp [addTopicSync, h]
    · simp [addTopicSync, h]
  · show ((st.topics.map _).map _) = st.topics
    rw [List.map_map]
    apply map_fix_eq_self
    intro t ht
    by_cases h : t.id = topic.id
    · have heq : t = topic := List.inj_on_of_nodup_map hnodup ht hmem h
      subst heq
      simp [topicItem_set_own_active]
    · simp [Function.comp, h]

/-- Witness for C7: at topic topicT1 in the one-element store, the failed
toggle's rollback restores the topics list exactly. -/
theorem topicCrud_spec_witness :
    (topicT1 ∈ topicsPageSt.topics ∧ (topicsPageSt.topics.map TopicItem.id).Nodup) ∧
    (toggleStatusComplete topicT1 (Except.error "boom")
      (toggleStatusSync topicT1 topicsPageSt)).topics = topicsPageSt.topics :=
  ⟨⟨by decide, by decide⟩,
    (topicCrud_spec [" q "] topicT1 "boom" topicsPageSt
      (by decide) (by decide)).2.2.2.2.2.2.2.1⟩

/-- C8 counterexample: a successfully created topic is prepended, not
appended: with prior list [topicT1], creating topicT2 yields
[topicT2, topicT1], whose last element is not the new topic. -/
theorem topicCreate_counterexample :
    (addTopicComplete (Except.ok topicT2) topicsPageSt).topics = [topicT2, topicT1] ∧
    (addTopicComplete (Except.ok topicT2) topicsPageSt).topics
      ≠ topicsPageSt.topics ++ [topicT2] ∧
    (addTopicComplete (Except.ok topicT2) topicsPageSt).topics.getLast? ≠ some topicT2 := by
  refine ⟨by decide, by decide, by decide⟩

/-- C8 amended: on successful topic creation the new topic is prepended to
the topics list — it becomes the head and the existing topics keep their
relative order as the tail — and the group selection and error field are
unchanged by the create operation. -/
theorem topicCreate_spec (created : TopicItem) (st : TopicsPageState) :
    (addTopicComplete (Except.ok created) st).topics = created :: st.topics ∧
    (addTopicComplete (Except.ok created) st).topics.head? = some created ∧
    (addTopicComplete (Except.ok created) st).topics.tail = st.topics ∧
    (addTopicComplete (Except.ok created) st).selectedGroupId = st.selectedGroupId ∧
    (addTopicComplete (Except.ok created) st).error = st.error :=
  ⟨rfl, rfl, rfl, rfl, rfl⟩

/-- C9 counterexample: with no topic selected and group group-1 selected,
the part_012 loader requests the dedicated group-scoped endpoint
(listContentByGroup), not the unscoped feed the claim requires. -/
theorem feedScoping_counterexample :
    feedRequest12 none "group-1" = FeedRequest.groupFeed "group-1" ∧
    FeedRequest.groupFeed "group-1" ≠ FeedRequest.fullFeed ∧
    feedRequest10 none = FeedRequest.fullFeed := by
  refine ⟨by decide, by decide, by decide⟩

/-- C9 amended: with a topic selected both loaders fetch the topic-scoped
feed.  With only a group selected, the part_010 loader fetches the unscoped
feed and client-side filters it down to items whose topic_uuid is among the
selected group's topic uuids, while the part_012 loader instead calls the
dedicated group-scoped endpoint.  With no selection both load the full feed
and the part_010 filter passes items through unchanged. -/
theorem feedScoping_spec :
    (∀ (t : Option String) (g : String), jsTruthyOptStr t = true →
      feedRequest12 t g = FeedRequest.topicFeed (t.getD "") ∧
      feedRequest10 t = FeedRequest.topicFeed (t.getD "")) ∧
    (∀ (t : Option String) (g : String), jsTruthyOptStr t = false → jsTruthyStr g = true →
      feedRequest12 t g = FeedRequest.groupFeed g ∧
      feedRequest10 t = FeedRequest.fullFeed) ∧
    (∀ (t : Option String) (g : String), jsTruthyOptStr t = false → jsTruthyStr g = false →
      feedRequest12 t g = FeedRequest.fullFeed ∧
      feedRequest10 t = FeedRequest.fullFeed) ∧
    (∀ (t : Option String) (g : String) (topics : List TopicItem)
      (items : List ApiContentFeedItem),
      jsTruthyOptStr t = false → jsTruthyStr g = true →
      ∀ item ∈ filterByGroup10 t g topics items,
        item.topic_uuid ∈
          (topics.filter fun tp => tp.groupUuid == some g).map TopicItem.uuid) ∧
    (∀ (t : Option String) (g : String) (topics : List TopicItem)
      (items : List ApiContentFeedItem),
      jsTruthyOptStr t = false → jsTruthyStr g = false →
      filterByGroup10 t g topics items = items) := by
  refine ⟨?_, ?_, ?_, ?_, ?_⟩
  · intro t g h
    constructor
    · unfold feedRequest12
      rw [if_pos h]
    · unfold feedRequest10
      rw [if_pos h]
  · intro t g h hg
    constructor
    · unfold feedRequest12
      rw [if_neg (by simp [h]), if_pos hg]
    · unfold feedRequest10
      rw [if_neg (by simp [h])]
  · intro t g h hg
    constructor
    · unfold feedRequest12
      rw [if_neg (by simp [h]), if_neg (by simp [hg])]
    · unfold feedRequest10
      rw [if_neg (by simp [h])]
  · intro t g topics items h hg item hitem
    have hcond : (!jsTruthyOptStr t && jsTruthyStr g) = true := by simp [h, hg]
    have hred : filterByGroup10 t g topics items =
        (if ((topics.filter fun tp => tp.groupUuid == some g).map TopicItem.uuid).length
            != 0 then
          items.filter fun i =>
            ((topics.filter fun tp => tp.groupUuid == some g).map TopicItem.uuid).contains
              i.topic_uuid
        else []) := by
      unfold filterByGroup10
      rw [if_pos hcond]
    rw [hred] at hitem
    by_cases hlen :
        (((topics.filter fun tp => tp.groupUuid == some g).map TopicItem.uuid).length
          != 0) = true
    · rw [if_pos hlen] at hitem
      exact List.elem_iff.mp (List.mem_filter.mp hitem).2
    · rw [if_neg hlen] at hitem
      simp at hitem
  · intro t g topics items h hg
    unfold filterByGroup10
    rw [if_neg (by simp [h, hg])]

/-- Witness for C9 at (no topic, group group-1): part_012 requests the
group endpoint while part_010 requests the unscoped feed. -/
theorem feedScoping_spec_witness :
    jsTruthyOptStr none = false ∧ jsTruthyStr "group-1" = true ∧
    feedRequest12 none "group-1" = FeedRequest.groupFeed "group-1" ∧
    feedRequest10 none = FeedRequest.fullFeed :=
  ⟨rfl, by decide, (feedScoping_spec.2.1 none "group-1" rfl (by decide)).1,
    (feedScoping_spec.2.1 none "group-1" rfl (by decide)).2⟩

/-- C10: frame property of the feed effect at unknown authentication.
While isAuthenticated is null the effect changes nothing — news, loading
and error keep their values and no fetch is issued — and the loader acts
only once authentication resolves: at true it issues the request for the
current selection, at false it clears the items and stops loading. -/
theorem feedEffect_unknownAuth_frame (selectedTopicUuid : Option String)
    (selectedGroupId : String) (st : FeedState) :
    dashboardFeedEffect none selectedTopicUuid selectedGroupId st = (st, none) ∧
    (dashboardFeedEffect none selectedTopicUuid selectedGroupId st).1.news = st.news ∧
    (dashboardFeedEffect none selectedTopicUuid selectedGroupId st).1.loading
      = st.loading ∧
    (dashboardFeedEffect none selectedTopicUuid selectedGroupId st).1.error = st.error ∧
    (dashboardFeedEffect none selectedTopicUuid selectedGroupId st).2 = none ∧
    (dashboardFeedEffect (some true) selectedTopicUuid selectedGroupId st).2
      = some (feedRequest12 selectedTopicUuid selectedGroupId) ∧
    (dashboardFeedEffect (some false) selectedTopicUuid selectedGroupId st).1.news = [] ∧
    (dashboardFeedEffect (some false) selectedTopicUuid selectedGroupId st).1.loading
      = false := by
  exact ⟨rfl, rfl, rfl, rfl, rfl, rfl, rfl, rfl⟩

end NewsRadar
